import Mathlib

/-!
Shallow embedding of the attribution / cohort / engagement core of the
babs-analysis pipeline (`features/engagement.py`,
`features/gateway_attribution.py`, `pipelines/build_tables.py`).

DataFrames are embedded as lists of records; nullable columns are `Option`;
timestamps are integers with one day = 86400 units; rates are rationals.
-/

/-- `pd.Timedelta(days = n)` in timestamp units (seconds). -/
def daysTd (n : Int) : Int := n * 86400

/-- Row of `live_session_assigned` (nullable session id so that
`nunique`, which skips nulls, can be 0 for a present user). -/
structure AssignedEvent where
  userId : Nat
  liveSessionId : Option Nat
deriving Repr, DecidableEq

/-- Row of `live_session_attendance`. -/
structure AttendanceEvent where
  studentId : Nat
  liveSessionId : Nat
  attendedAt : Option Int
deriving Repr, DecidableEq

/-- Row of `login_history`. -/
structure LoginEvent where
  userId : Nat
  status : String
  timestamp : Option Int
deriving Repr, DecidableEq

/-- Row of `assignment_submissions` (only the columns the core reads). -/
structure SubmissionEvent where
  studentId : Nat
  submittedAt : Option Int
deriving Repr, DecidableEq

/-- Row of `payments` (only the columns the core reads). -/
structure Payment where
  userId : Nat
  productId : Nat
  status : String
  paidAt : Option Int
  createdAt : Option Int
deriving Repr, DecidableEq

/-- Row of `product_accesses`. -/
structure ProductAccess where
  userId : Nat
  startDate : Option Int
  createdAt : Option Int
deriving Repr, DecidableEq

/-- Output row of `build_attendance` (per user). -/
structure AttendanceRow where
  userId : Nat
  assignedSessions : Nat
  attendedSessions : Nat
  attendanceRate : Option ℚ
deriving Repr, DecidableEq

/-- Row of the `assignment_completion` table that
`build_completion_and_absconded` receives (per (student, course); the rate
is nullable because its `totalAssignments` join can miss). -/
structure AssignmentCompletionRow where
  studentId : Nat
  courseId : Nat
  assignmentCompletionRate : Option ℚ
deriving Repr, DecidableEq

/-- Row of the `completion` output of `build_completion_and_absconded`
(rates are plain numbers there: the code `fillna(0)`s both columns). -/
structure CompletionRow where
  userId : Nat
  courseId : Nat
  assignmentCompletionRate : ℚ
  attendanceRate : ℚ
  isComplete : Bool
deriving Repr, DecidableEq

/-- Row of the `absconded` output of `build_completion_and_absconded`. -/
structure AbscondedRow where
  userId : Nat
  courseId : Nat
  assignmentCompletionRate : ℚ
  attendanceRate : ℚ
  isComplete : Bool
  timestamp : Option Int
  inactive30 : Bool
  isAbsconded : Bool
deriving Repr, DecidableEq

/-- `live_session_assigned.groupby("userId")["liveSessionId"].nunique()` for
one user: distinct non-null session ids (pandas `nunique` skips nulls). -/
def assignedSessionCount (assigned : List AssignedEvent) (u : Nat) : Nat :=
  (((assigned.filter (fun e => e.userId = u)).filterMap (fun e => e.liveSessionId)).dedup).length

/-- `live_session_attendance.groupby("studentId")["liveSessionId"].nunique()`
for one user. -/
def attendedSessionCount (att : List AttendanceEvent) (u : Nat) : Nat :=
  (((att.filter (fun e => e.studentId = u)).map (fun e => e.liveSessionId)).dedup).length

/-- `build_attendance` (engagement.py:35-47), per-user part: group assigned
sessions by user, left-join distinct attended counts (`fillna(0)`), and
divide with `replace(0, nan)` on the denominator, so a zero denominator
gives a null rate. -/
def buildAttendance (assigned : List AssignedEvent) (att : List AttendanceEvent) :
    List AttendanceRow :=
  ((assigned.map (fun e => e.userId)).dedup).map (fun u =>
    let aCnt := assignedSessionCount assigned u
    let tCnt := attendedSessionCount att u
    { userId := u
      assignedSessions := aCnt
      attendedSessions := tCnt
      attendanceRate := if aCnt = 0 then none else some ((tCnt : ℚ) / (aCnt : ℚ)) })

/-- Latest successful login per user
(engagement.py:97-98: filter `status == "success"`, group-max of
`timestamp`; pandas max skips nulls and is null for an empty group). -/
def lastSuccessLogin (logins : List LoginEvent) (u : Nat) : Option Int :=
  (((logins.filter (fun l => l.userId = u && l.status == "success")).filterMap
      (fun l => l.timestamp))).max?

/-- Nullable comparison `x < c` with pandas semantics (null compares false). -/
def ltOpt (x : Option Int) (c : Int) : Bool :=
  match x with
  | some v => decide (v < c)
  | none => false

/-- `build_completion_and_absconded` (engagement.py:75-109): dedup
enrollments, left-join assignment completion on (user, course) and
attendance on user, `fillna(0)` both rates, flag completion at the 0.7
thresholds, then left-join the last successful login and flag absconded at
the 0.1 thresholds plus 30-day inactivity before `maxDate`. -/
def completionRow (assignmentCompletion : List AssignmentCompletionRow)
    (attendance : List AttendanceRow) (uc : Nat × Nat) : CompletionRow :=
  let acr := ((assignmentCompletion.find? (fun r =>
      r.studentId = uc.1 && r.courseId = uc.2)).bind
      (fun r => r.assignmentCompletionRate)).getD 0
  let ar := ((attendance.find? (fun r => r.userId = uc.1)).bind
      (fun r => r.attendanceRate)).getD 0
  { userId := uc.1
    courseId := uc.2
    assignmentCompletionRate := acr
    attendanceRate := ar
    isComplete := decide ((7 : ℚ)/10 ≤ acr) && decide ((7 : ℚ)/10 ≤ ar) }

/-- The absconded extension of one completion row (engagement.py:100-107). -/
def abscondedRow (logins : List LoginEvent) (maxDate : Int) (c : CompletionRow) :
    AbscondedRow :=
  let ll := lastSuccessLogin logins c.userId
  let cutoff := maxDate - daysTd 30
  let inactive := ll.isNone || ltOpt ll cutoff
  { userId := c.userId
    courseId := c.courseId
    assignmentCompletionRate := c.assignmentCompletionRate
    attendanceRate := c.attendanceRate
    isComplete := c.isComplete
    timestamp := ll
    inactive30 := inactive
    isAbsconded := decide (c.assignmentCompletionRate < 1/10) &&
      decide (c.attendanceRate < 1/10) && inactive }

/-- Pairing of the two outputs of `build_completion_and_absconded`. -/
def buildCompletionAndAbsconded (enrollments : List (Nat × Nat))
    (assignmentCompletion : List AssignmentCompletionRow)
    (attendance : List AttendanceRow) (logins : List LoginEvent) (maxDate : Int) :
    List CompletionRow × List AbscondedRow :=
  let completion := enrollments.dedup.map (completionRow assignmentCompletion attendance)
  (completion, completion.map (abscondedRow logins maxDate))

/-- The timestamps observed in the designated column of each of the four
behavioral relations read by `max_date` (build_tables.py:234-239):
`payments.createdAt`, `login_history.timestamp`,
`product_accesses.createdAt`, `live_session_attendance.attendedAt`; null
entries are skipped (pandas column `.max()` skips them). -/
def observedTimestamps (payments : List Payment) (logins : List LoginEvent)
    (accesses : List ProductAccess) (att : List AttendanceEvent) : List Int :=
  (payments.filterMap (fun p => p.createdAt)) ++
    (logins.filterMap (fun l => l.timestamp)) ++
    (accesses.filterMap (fun a => a.createdAt)) ++
    (att.filterMap (fun e => e.attendedAt))

/-- `max_date` (build_tables.py:234-239): Python's builtin `max` over the
four per-column (null-skipping) maxima, with `payments["createdAt"].max()`
first. Every comparison against `NaT` is false, so the builtin `max` never
replaces a `NaT` accumulator: when the payments column maximum is null the
whole result is null regardless of the other relations; otherwise a later
`NaT` is never selected and the result is the null-skipping maximum of all
observed timestamps (the payments maximum being one of them). -/
def maxDate (payments : List Payment) (logins : List LoginEvent)
    (accesses : List ProductAccess) (att : List AttendanceEvent) : Option Int :=
  match (payments.filterMap (fun p => p.createdAt)).max? with
  | none => none
  | some _ => (observedTimestamps payments logins accesses att).max?

/-- Character-list version of Python string startswith. -/
def startsWithChars : List Char → List Char → Bool
  | [], _ => true
  | _ :: _, [] => false
  | p :: ps, c :: cs => (p = c) && startsWithChars ps cs

/-- Character-list version of Python substring containment (`pat in s`). -/
def containsChars (pat : List Char) : List Char → Bool
  | [] => startsWithChars pat []
  | c :: cs => startsWithChars pat (c :: cs) || containsChars pat cs

/-- ASCII lowercasing of one character (Python `str.lower` on the ASCII
titles and keywords this pipeline handles). -/
def lowerChar (c : Char) : Char :=
  if 65 ≤ c.toNat ∧ c.toNat ≤ 90 then Char.ofNat (c.toNat + 32) else c

/-- `_has_keyword` (gateway_attribution.py:13-15): lowercase the value
(missing values degrade to the empty string) and test substring containment
against each keyword. -/
def hasKeyword (value : Option String) (keywords : List String) : Bool :=
  let text := ((value.getD ("")).toList.map lowerChar)
  keywords.any (fun k => containsChars k.toList text)

/-- `GATEWAY_SESSION_KEYWORDS` (config/constants.py). -/
def GATEWAY_SESSION_KEYWORDS : List String :=
  ["info session", "information session", "intro", "introduction",
   "orientation", "webinar", "open day", "open-day", "masterclass",
   "taster", "trial", "interview", "interview prep", "prep"]

/-- `GATEWAY_PRODUCT_KEYWORDS` (config/constants.py; built as a set union,
so only membership is significant). -/
def GATEWAY_PRODUCT_KEYWORDS : List String :=
  ["interview prep", "interview", "prep", "intro", "starter", "foundation",
   "taster", "trial", "basic", "entry", "one-time", "a la carte", "ala carte"]

/-- `MENTORSHIP_KEYWORDS` (config/constants.py). -/
def MENTORSHIP_KEYWORDS : List String :=
  ["mentorship", "mentor", "coaching"]

/-- Row of `products` (only the columns the core reads). -/
structure Product where
  id : Nat
  title : Option String
  price : Option ℚ
deriving Repr, DecidableEq

/-- Row of `live_sessions` (only the columns the classifier reads). -/
structure LiveSession where
  liveSessionId : Nat
  title : Option String
deriving Repr, DecidableEq

/-- Output row of `classify_products`. -/
structure ProductFlags where
  productId : Nat
  productTitle : Option String
  price : Option ℚ
  is_gateway_product : Bool
  is_mentorship_product : Bool
deriving Repr, DecidableEq

/-- Insertion into a sorted list of rationals. -/
def insertSorted (x : ℚ) : List ℚ → List ℚ
  | [] => [x]
  | y :: ys => if x ≤ y then x :: y :: ys else y :: insertSorted x ys

/-- Ascending insertion sort on rationals. -/
def sortQ (xs : List ℚ) : List ℚ :=
  xs.foldr insertSorted []

/-- Empirical quantile with linear interpolation (pandas
`Series.quantile` default) over an ascending-sorted value list. -/
def quantileSorted (xs : List ℚ) (q : ℚ) : ℚ :=
  let n := xs.length
  let pos := q * ((n : ℚ) - 1)
  let i : Int := ⌊pos⌋
  let lo := xs.getD i.toNat 0
  let hi := xs.getD (i.toNat + 1) lo
  lo + (pos - (i : ℚ)) * (hi - lo)

/-- The non-null prices of a product table (pandas `quantile` skips nulls). -/
def nonNullPrices (products : List Product) : List ℚ :=
  products.filterMap (fun p => p.price)

/-- Nullable comparison `price ≤ c` with pandas semantics (null is false). -/
def priceLe (x : Option ℚ) (c : ℚ) : Bool :=
  match x with
  | some v => decide (v ≤ c)
  | none => false

/-- Nullable comparison `price ≥ c` with pandas semantics (null is false). -/
def priceGe (x : Option ℚ) (c : ℚ) : Bool :=
  match x with
  | some v => decide (c ≤ v)
  | none => false

/-- `classify_products` (gateway_attribution.py:27-47): keyword flags, then
— only when some non-null price exists — OR in the price rules
`price <= price_low` and `price >= price_high`, with the thresholds the
empirical quantiles of the non-null price distribution. -/
def classifyProducts (products : List Product) (gatewayQuantile mentorshipQuantile : ℚ) :
    List ProductFlags :=
  let prices := nonNullPrices products
  let hasPrices := !prices.isEmpty
  let priceLow := quantileSorted (sortQ prices) gatewayQuantile
  let priceHigh := quantileSorted (sortQ prices) mentorshipQuantile
  products.map (fun p =>
    let kwG := hasKeyword p.title GATEWAY_PRODUCT_KEYWORDS
    let kwM := hasKeyword p.title MENTORSHIP_KEYWORDS
    { productId := p.id
      productTitle := p.title
      price := p.price
      is_gateway_product := if hasPrices then kwG || priceLe p.price priceLow else kwG
      is_mentorship_product := if hasPrices then kwM || priceGe p.price priceHigh else kwM })

/-- `classify_gateway_sessions` applied through the left join of
attendance to sessions (gateway_attribution.py:18-24,65-67): a session id
is a gateway session when its row exists and its title matches a gateway
session keyword (a missed join compares `NaN == True`, i.e. false). -/
def isGatewaySessionId (sessions : List LiveSession) (sid : Nat) : Bool :=
  match sessions.find? (fun s => s.liveSessionId = sid) with
  | some s => hasKeyword s.title GATEWAY_SESSION_KEYWORDS
  | none => false

/-- Gateway-flag lookup for a product id through the payments left join
(gateway_attribution.py:84-85). -/
def isGatewayProductId (flags : List ProductFlags) (pid : Nat) : Bool :=
  match flags.find? (fun f => f.productId = pid) with
  | some f => f.is_gateway_product
  | none => false

/-- Mentorship-flag lookup for a product id (gateway_attribution.py:118). -/
def isMentorshipProductId (flags : List ProductFlags) (pid : Nat) : Bool :=
  match flags.find? (fun f => f.productId = pid) with
  | some f => f.is_mentorship_product
  | none => false

/-- `payments_succ` (gateway_attribution.py:82-83): keep succeeded
payments and fall back `paidAt` to `createdAt` when null. -/
def succPayments (payments : List Payment) : List Payment :=
  (payments.filter (fun p => p.status == "succeeded")).map (fun p =>
    { p with paidAt := p.paidAt <|> p.createdAt })

/-- Candidate gateway-session touch (gateway_attribution.py:65-79): the
earliest non-null attendance time of the user at a gateway session. -/
def firstSessionTouch (att : List AttendanceEvent) (sessions : List LiveSession)
    (u : Nat) : Option Int :=
  ((att.filter (fun e => e.studentId = u && isGatewaySessionId sessions e.liveSessionId)).filterMap
      (fun e => e.attendedAt)).min?

/-- Candidate gateway-product touch (gateway_attribution.py:82-97): the
earliest non-null (fallback-resolved) paid time of the user on a gateway
product among succeeded payments. -/
def firstProductTouch (payments : List Payment) (flags : List ProductFlags)
    (u : Nat) : Option Int :=
  (((succPayments payments).filter (fun p =>
      p.userId = u && isGatewayProductId flags p.productId)).filterMap
      (fun p => p.paidAt)).min?

/-- Row-wise min over the two nullable touch candidates (pandas
`min(axis=1)` skips nulls). -/
def optMin2 (a b : Option Int) : Option Int :=
  match a, b with
  | none, b => b
  | some x, none => some x
  | some x, some y => some (min x y)

/-- `first_touch_type` (gateway_attribution.py:102-107): "session" when the
session candidate exists and the product candidate is null or not earlier;
otherwise "product". -/
def touchType (s : Option Int) (p : Option Int) : String :=
  match s, p with
  | some _, none => "session"
  | some sv, some pv => if sv ≤ pv then ("session") else ("product")
  | none, _ => "product"

/-- First-ever succeeded payment time per user
(gateway_attribution.py:117); null when the user has none with a non-null
(fallback-resolved) paid time. -/
def firstPaymentTime (payments : List Payment) (u : Nat) : Option Int :=
  (((succPayments payments).filter (fun p => p.userId = u)).filterMap
      (fun p => p.paidAt)).min?

/-- First mentorship-product succeeded payment time per user
(gateway_attribution.py:118-119). -/
def firstMentorshipTime (payments : List Payment) (flags : List ProductFlags)
    (u : Nat) : Option Int :=
  (((succPayments payments).filter (fun p =>
      p.userId = u && isMentorshipProductId flags p.productId)).filterMap
      (fun p => p.paidAt)).min?

/-- First product-access time per user (gateway_attribution.py:121-123):
`startDate` with `createdAt` fallback, group-min skipping nulls. -/
def firstAccessTime (accesses : List ProductAccess) (u : Nat) : Option Int :=
  ((accesses.filter (fun a => a.userId = u)).filterMap
      (fun a => a.startDate <|> a.createdAt)).min?

/-- Earliest succeeded payment strictly after the first touch
(gateway_attribution.py:136-142; `paidAt > first_touch_time` drops nulls). -/
def firstAnyPaidAfter (payments : List Payment) (u : Nat) (ftt : Int) : Option Int :=
  ((((succPayments payments).filter (fun p => p.userId = u)).filterMap
      (fun p => p.paidAt)).filter (fun t => ftt < t)).min?

/-- Earliest mentorship payment strictly after the first touch
(gateway_attribution.py:143-145). -/
def firstMentorPaidAfter (payments : List Payment) (flags : List ProductFlags)
    (u : Nat) (ftt : Int) : Option Int :=
  ((((succPayments payments).filter (fun p =>
      p.userId = u && isMentorshipProductId flags p.productId)).filterMap
      (fun p => p.paidAt)).filter (fun t => ftt < t)).min?

/-- `geOpt x t`: pandas `x.isna() | (x >= t)` on a nullable value. -/
def geOpt (x : Option Int) (t : Int) : Bool :=
  match x with
  | some v => decide (t ≤ v)
  | none => true

/-- Row of the `gateway_touch_attribution` output table. -/
structure TouchRow where
  userId : Nat
  gateway_session_time : Option Int
  gateway_product_time : Option Int
  first_touch_time : Int
  first_touch_type : String
  is_newcomer_A : Bool
  is_newcomer_B : Bool
  is_newcomer_C : Bool
  is_newcomer_strict : Bool
  days_to_any_paid : Option Int
  days_to_mentorship_paid : Option Int
deriving Repr, DecidableEq

/-- The touch table (gateway_attribution.py:61-150): outer-join the two
per-user candidate touches (a user appears exactly when it has at least
one), take the row min as `first_touch_time`, classify the touch type,
compute the three newcomer flags and their conjunction, and the
whole-day (floor) deltas to the first any/mentorship payment strictly
after the touch. -/
def mkTouchRow (sessions : List LiveSession) (att : List AttendanceEvent)
    (payments : List Payment) (flags : List ProductFlags)
    (accesses : List ProductAccess) (u : Nat) : Option TouchRow :=
  let s := firstSessionTouch att sessions u
  let p := firstProductTouch payments flags u
  match optMin2 s p with
  | none => none
  | some ftt =>
    some { userId := u
           gateway_session_time := s
           gateway_product_time := p
           first_touch_time := ftt
           first_touch_type := touchType s p
           is_newcomer_A := geOpt (firstPaymentTime payments u) ftt
           is_newcomer_B := geOpt (firstMentorshipTime payments flags u) ftt
           is_newcomer_C := geOpt (firstAccessTime accesses u) ftt
           is_newcomer_strict := geOpt (firstPaymentTime payments u) ftt &&
             geOpt (firstMentorshipTime payments flags u) ftt &&
             geOpt (firstAccessTime accesses u) ftt
           days_to_any_paid := (firstAnyPaidAfter payments u ftt).map
             (fun t => (t - ftt).fdiv 86400)
           days_to_mentorship_paid := (firstMentorPaidAfter payments flags u ftt).map
             (fun t => (t - ftt).fdiv 86400) }

/-- The touch table over the user pool (one candidate row per distinct user
appearing in attendance or payments; users without any candidate touch are
dropped by the `none` branch, matching the outer join plus
`dropna(subset=["first_touch_time"])`). -/
def buildTouches (sessions : List LiveSession) (att : List AttendanceEvent)
    (payments : List Payment) (products : List Product)
    (accesses : List ProductAccess) (gatewayQuantile mentorshipQuantile : ℚ) :
    List TouchRow :=
  let flags := classifyProducts products gatewayQuantile mentorshipQuantile
  let users := ((att.map (fun e => e.studentId)) ++ (payments.map (fun p => p.userId))).dedup
  users.filterMap (mkTouchRow sessions att payments flags accesses)

/-- Nullable comparison `d ≤ w` (pandas `notna() & (col <= w)`). -/
def leOptInt (d : Option Int) (w : Int) : Bool :=
  match d with
  | some v => decide (v ≤ w)
  | none => false

/-- `cohort_size` (gateway_attribution.py:164): distinct user count of the
cohort rows. -/
def cohortSize (rows : List TouchRow) : Nat :=
  ((rows.map (fun r => r.userId)).dedup).length

/-- `any_paid_{w}d` (gateway_attribution.py:167): cohort rows whose
days-to-any-paid is non-null and at most `w`. -/
def anyPaidCount (rows : List TouchRow) (w : Int) : Nat :=
  rows.countP (fun r => leOptInt r.days_to_any_paid w)

/-- `mentorship_paid_{w}d` (gateway_attribution.py:168). -/
def mentPaidCount (rows : List TouchRow) (w : Int) : Nat :=
  rows.countP (fun r => leOptInt r.days_to_mentorship_paid w)

/-- `count / size if size else np.nan` (gateway_attribution.py:170,172). -/
def rateOf (count size : Nat) : Option ℚ :=
  if size = 0 then none else some ((count : ℚ) / (size : ℚ))

/-- The fixed conversion windows (gateway_attribution.py:153). -/
def windows : List Int := [1, 3, 7, 14, 30]

/-- The four cohort definitions, in dict order
(gateway_attribution.py:154-159). -/
def cohortDefs : List (String × (TouchRow → Bool)) :=
  [("newcomer_A", fun r => r.is_newcomer_A),
   ("newcomer_B", fun r => r.is_newcomer_B),
   ("newcomer_C", fun r => r.is_newcomer_C),
   ("newcomer_strict", fun r => r.is_newcomer_strict)]

/-- Row of `gateway_conversion_summary`; the per-window columns
`{any,mentorship}_paid_{w}d` and their rates are kept as
(window, count, rate) triples. -/
structure SummaryRow where
  cohort : String
  cohort_size : Nat
  any_paid : List (Int × Nat × Option ℚ)
  mentorship_paid : List (Int × Nat × Option ℚ)
deriving Repr, DecidableEq

/-- `conversion_summary` (gateway_attribution.py:161-177): one row per
cohort definition, always emitted, with null rates when the cohort is
empty. -/
def conversionSummary (touches : List TouchRow) : List SummaryRow :=
  cohortDefs.map (fun nc =>
    let rows := touches.filter nc.2
    let size := cohortSize rows
    { cohort := nc.1
      cohort_size := size
      any_paid := windows.map (fun w =>
        (w, anyPaidCount rows w, rateOf (anyPaidCount rows w) size))
      mentorship_paid := windows.map (fun w =>
        (w, mentPaidCount rows w, rateOf (mentPaidCount rows w) size)) })

/-- Row of `gateway_conversion_curve`. -/
structure CurveRow where
  cohort : String
  day : Int
  mentorship_conversion_rate : ℚ
deriving Repr, DecidableEq

/-- One cohort's 31-point curve segment (gateway_attribution.py:186-188). -/
def curveSegment (name : String) (rows : List TouchRow) (size : Nat) : List CurveRow :=
  (List.range 31).map (fun (d : Nat) =>
    { cohort := name
      day := Int.ofNat d
      mentorship_conversion_rate := (mentPaidCount rows (Int.ofNat d) : ℚ) / (size : ℚ) })

/-- `conversion_curve` (gateway_attribution.py:179-190): per cohort, skip
it entirely when its size is zero, otherwise emit the rate at each day 0
through 30 inclusive. -/
def conversionCurve (touches : List TouchRow) : List CurveRow :=
  cohortDefs.flatMap (fun nc =>
    let rows := touches.filter nc.2
    let size := cohortSize rows
    if size = 0 then [] else curveSegment nc.1 rows size)

/-- Row of the buyer's-remorse output (engagement.py:169-180). -/
structure RemorseRow where
  userId : Nat
  paidAt : Int
  week1_attendance : Nat
  week4_attendance : Nat
  week1_submissions : Nat
  week4_submissions : Nat
  week1_logins : Nat
  week4_logins : Nat
deriving Repr, DecidableEq

/-- `_count_between` (engagement.py:158-160) over (user, nullable time)
pairs: events of the payer with time in
`[paidAt + start days, paidAt + end days]`, both ends inclusive (null
times compare false in pandas and are not counted). -/
def countBetween (events : List (Nat × Option Int)) (u : Nat) (paidAt a b : Int) : Nat :=
  events.countP (fun e =>
    e.1 = u &&
      (match e.2 with
       | some t => decide (paidAt + daysTd a ≤ t) && decide (t ≤ paidAt + daysTd b)
       | none => false))

/-- `buyers_remorse_window` (engagement.py:134-182): one row per succeeded
payment with a non-null `paidAt` (no `createdAt` fallback here), carrying
the week-1 `[+0d, +7d]` and week-4 `[+22d, +28d]` event counts of the
payer in each of the three behavioral streams. -/
def buyersRemorseWindow (payments : List Payment) (att : List AttendanceEvent)
    (subs : List SubmissionEvent) (logins : List LoginEvent) : List RemorseRow :=
  let attEvents := att.map (fun e => (e.studentId, e.attendedAt))
  let subEvents := subs.map (fun e => (e.studentId, e.submittedAt))
  let loginEvents := (logins.filter (fun l => l.status == "success")).map
    (fun l => (l.userId, l.timestamp))
  (payments.filter (fun p => p.status == "succeeded")).filterMap (fun p =>
    p.paidAt.map (fun t =>
      { userId := p.userId
        paidAt := t
        week1_attendance := countBetween attEvents p.userId t 0 7
        week4_attendance := countBetween attEvents p.userId t 22 28
        week1_submissions := countBetween subEvents p.userId t 0 7
        week4_submissions := countBetween subEvents p.userId t 22 28
        week1_logins := countBetween loginEvents p.userId t 0 7
        week4_logins := countBetween loginEvents p.userId t 22 28 }))


/-- Concrete touch row used by the summary/curve witnesses. -/
def touchRowW : TouchRow :=
  ⟨1, some 100, some 200, 100, "session", true, true, true, true, some 0, some 0⟩

/-- The newcomer-A cohort rows of the one-row witness touch table. -/
def cohortRowsW : List TouchRow :=
  [touchRowW].filter (fun r => r.is_newcomer_A)

/-! ### Helper lemmas -/

theorem fst_buildCompletionAndAbsconded (e : List (Nat × Nat))
    (ac : List AssignmentCompletionRow) (a : List AttendanceRow)
    (l : List LoginEvent) (m : Int) :
    (buildCompletionAndAbsconded e ac a l m).1 = e.dedup.map (completionRow ac a) := rfl

theorem snd_buildCompletionAndAbsconded (e : List (Nat × Nat))
    (ac : List AssignmentCompletionRow) (a : List AttendanceRow)
    (l : List LoginEvent) (m : Int) :
    (buildCompletionAndAbsconded e ac a l m).2 =
      (e.dedup.map (completionRow ac a)).map (abscondedRow l m) := rfl

theorem mem_buildAttendance (assigned : List AssignedEvent) (att : List AttendanceEvent)
    (row : AttendanceRow) (h : row ∈ buildAttendance assigned att) :
    row.assignedSessions = assignedSessionCount assigned row.userId ∧
    row.attendedSessions = attendedSessionCount att row.userId ∧
    row.attendanceRate =
      (if assignedSessionCount assigned row.userId = 0 then none
       else some ((attendedSessionCount att row.userId : ℚ) /
         (assignedSessionCount assigned row.userId : ℚ))) := by
  simp only [buildAttendance, List.mem_map] at h
  obtain ⟨u, _, rfl⟩ := h
  exact ⟨rfl, rfl, rfl⟩

/-! ### C4 -/

/-- C4: in the completion/absconded scoring, `isComplete` is exactly the
conjunction of both rates being at least 0.7, `isAbsconded` requires both
rates below 0.1, and hence no row is ever flagged both complete and
absconded. -/
theorem complete_absconded_never_both (enrollments : List (Nat × Nat))
    (ac : List AssignmentCompletionRow) (attendance : List AttendanceRow)
    (logins : List LoginEvent) (md : Int) :
    ∀ r ∈ (buildCompletionAndAbsconded enrollments ac attendance logins md).2,
      (r.isComplete = true ↔
        (7 : ℚ)/10 ≤ r.assignmentCompletionRate ∧ (7 : ℚ)/10 ≤ r.attendanceRate) ∧
      (r.isAbsconded = true →
        r.assignmentCompletionRate < 1/10 ∧ r.attendanceRate < 1/10) ∧
      ¬(r.isComplete = true ∧ r.isAbsconded = true) := by
  intro r hr
  rw [snd_buildCompletionAndAbsconded] at hr
  simp only [List.mem_map] at hr
  obtain ⟨c, ⟨uc, huc, rfl⟩, rfl⟩ := hr
  refine ⟨by simp [abscondedRow, completionRow], ?_, ?_⟩
  · intro h
    simp only [abscondedRow, Bool.and_eq_true, decide_eq_true_eq] at h
    exact ⟨h.1.1, h.1.2⟩
  · rintro ⟨h1, h2⟩
    simp only [abscondedRow, completionRow, Bool.and_eq_true, decide_eq_true_eq] at h1 h2
    linarith [h1.1, h2.1.1]

/-- Witness for C4 at a concrete single-enrollment input. -/
theorem complete_absconded_never_both_witness :
    ¬((abscondedRow [] 0 (completionRow [] [] (1, 2))).isComplete = true ∧
      (abscondedRow [] 0 (completionRow [] [] (1, 2))).isAbsconded = true) :=
  (complete_absconded_never_both [(1, 2)] [] [] [] 0
    (abscondedRow [] 0 (completionRow [] [] (1, 2)))
    (by rw [snd_buildCompletionAndAbsconded]
        exact List.mem_map_of_mem _ (List.mem_map_of_mem _ (by decide)))).2.2

/-! ### C10 -/

/-- C10: in the completion output, `attendanceRate` is a per-user quantity:
it is the platform-wide rate looked up from the per-user attendance table
by the user key alone (with the `fillna(0)` default), so any two rows of
the same user carry the identical rate regardless of course. -/
theorem attendance_rate_is_per_user (enrollments : List (Nat × Nat))
    (ac : List AssignmentCompletionRow) (assigned : List AssignedEvent)
    (att : List AttendanceEvent) (logins : List LoginEvent) (md : Int) :
    (∀ r ∈ (buildCompletionAndAbsconded enrollments ac
        (buildAttendance assigned att) logins md).1,
      r.attendanceRate = (((buildAttendance assigned att).find? (fun a =>
        a.userId = r.userId)).bind (fun a => a.attendanceRate)).getD 0) ∧
    ∀ r1 ∈ (buildCompletionAndAbsconded enrollments ac
        (buildAttendance assigned att) logins md).1,
    ∀ r2 ∈ (buildCompletionAndAbsconded enrollments ac
        (buildAttendance assigned att) logins md).1,
      r1.userId = r2.userId → r1.attendanceRate = r2.attendanceRate := by
  have key : ∀ r ∈ (buildCompletionAndAbsconded enrollments ac
      (buildAttendance assigned att) logins md).1,
      r.attendanceRate = (((buildAttendance assigned att).find? (fun a =>
        a.userId = r.userId)).bind (fun a => a.attendanceRate)).getD 0 := by
    intro r hr
    rw [fst_buildCompletionAndAbsconded] at hr
    simp only [List.mem_map] at hr
    obtain ⟨uc, huc, rfl⟩ := hr
    rfl
  refine ⟨key, fun r1 h1 r2 h2 hu => ?_⟩
  rw [key r1 h1, key r2 h2, hu]

/-- Witness for C10: one user enrolled in two courses gets the same
platform-wide attendance rate on both rows. -/
theorem attendance_rate_is_per_user_witness :
    (completionRow [] (buildAttendance [⟨1, some 10⟩, ⟨1, some 11⟩] [⟨1, 10, some 5⟩])
      (1, 2)).attendanceRate =
    (completionRow [] (buildAttendance [⟨1, some 10⟩, ⟨1, some 11⟩] [⟨1, 10, some 5⟩])
      (1, 3)).attendanceRate :=
  ((attendance_rate_is_per_user [(1, 2), (1, 3)] [] [⟨1, some 10⟩, ⟨1, some 11⟩]
      [⟨1, 10, some 5⟩] [] 0).2
    (completionRow [] (buildAttendance [⟨1, some 10⟩, ⟨1, some 11⟩] [⟨1, 10, some 5⟩]) (1, 2))
    (by rw [fst_buildCompletionAndAbsconded]
        exact List.mem_map_of_mem _ (by decide))
    (completionRow [] (buildAttendance [⟨1, some 10⟩, ⟨1, some 11⟩] [⟨1, 10, some 5⟩]) (1, 3))
    (by rw [fst_buildCompletionAndAbsconded]
        exact List.mem_map_of_mem _ (by decide))
    rfl)

/-! ### C1 -/

/-- Counterexample to C1 as stated: with one enrollment and no assigned
sessions at all, the user has zero assigned sessions, yet the completion
output carries `attendanceRate = 0` — the null produced by the attendance
division is filled to 0 by the completion join, not kept as null. -/
theorem completion_rate_zero_not_null_cex :
    assignedSessionCount [] 1 = 0 ∧
    ((buildCompletionAndAbsconded [(1, 2)] [] (buildAttendance [] []) [] 0).1.map
      (fun r => r.attendanceRate)) = [0] := by
  constructor
  · rfl
  · simp [buildCompletionAndAbsconded, completionRow, buildAttendance]

/-- C1 (amended): zero denominators never raise and are null where the
column is nullable — the per-user attendance table and the cohort summary
rates — but in the completion output the nullable attendance rate is
explicitly filled to 0 for users with zero assigned sessions. -/
theorem zero_denominator_rates (assigned : List AssignedEvent)
    (att : List AttendanceEvent) (enrollments : List (Nat × Nat))
    (ac : List AssignmentCompletionRow) (logins : List LoginEvent) (md : Int)
    (touches : List TouchRow) :
    (∀ row ∈ buildAttendance assigned att,
        row.assignedSessions = 0 → row.attendanceRate = none) ∧
    (∀ row ∈ (buildCompletionAndAbsconded enrollments ac
        (buildAttendance assigned att) logins md).1,
        assignedSessionCount assigned row.userId = 0 → row.attendanceRate = 0) ∧
    (∀ srow ∈ conversionSummary touches, srow.cohort_size = 0 →
        (∀ w c r, (w, c, r) ∈ srow.any_paid → r = none) ∧
        (∀ w c r, (w, c, r) ∈ srow.mentorship_paid → r = none)) := by
  refine ⟨?_, ?_, ?_⟩
  · intro row h hz
    have hh := (mem_buildAttendance assigned att row h).2.2
    rw [← (mem_buildAttendance assigned att row h).1, hz] at hh
    simpa using hh
  · intro row h hz
    rw [fst_buildCompletionAndAbsconded] at h
    simp only [List.mem_map] at h
    obtain ⟨uc, huc, rfl⟩ := h
    have hz' : assignedSessionCount assigned uc.1 = 0 := hz
    show (completionRow ac (buildAttendance assigned att) uc).attendanceRate = 0
    cases hf : (buildAttendance assigned att).find? (fun a => a.userId = uc.1) with
    | none => simp [completionRow, hf]
    | some arow =>
      have hu : arow.userId = uc.1 := by simpa using List.find?_some hf
      have hm := List.mem_of_find?_eq_some hf
      have hh := (mem_buildAttendance assigned att arow hm).2.2
      rw [hu, hz'] at hh
      simp only [if_pos] at hh
      simp [completionRow, hf, hh]
  · intro srow h hz
    simp only [conversionSummary, List.mem_map] at h
    obtain ⟨nc, hnc, rfl⟩ := h
    have hsize : cohortSize (touches.filter nc.2) = 0 := hz
    constructor
    · intro w c r hmem
      simp only [List.mem_map, Prod.ext_iff] at hmem
      obtain ⟨w', hw', h1, h2, h3⟩ := hmem
      rw [← h3, hsize]
      simp [rateOf]
    · intro w c r hmem
      simp only [List.mem_map, Prod.ext_iff] at hmem
      obtain ⟨w', hw', h1, h2, h3⟩ := hmem
      rw [← h3, hsize]
      simp [rateOf]

/-- Witness for C1: a user whose only assigned-session row has a null
session id gets a null attendance rate in the attendance table, while an
enrolled user with zero assigned sessions gets 0 in the completion output. -/
theorem zero_denominator_rates_witness :
    (⟨2, 0, 0, none⟩ : AttendanceRow).attendanceRate = none ∧
    (completionRow [] (buildAttendance [⟨2, none⟩] []) (1, 2)).attendanceRate = 0 :=
  ⟨(zero_denominator_rates [⟨2, none⟩] [] [(1, 2)] [] [] 0 []).1
      ⟨2, 0, 0, none⟩ (by decide) (by decide),
   (zero_denominator_rates [⟨2, none⟩] [] [(1, 2)] [] [] 0 []).2.1
      (completionRow [] (buildAttendance [⟨2, none⟩] []) (1, 2))
      (by rw [fst_buildCompletionAndAbsconded]
          exact List.mem_map_of_mem _ (by decide))
      (by decide)⟩

/-! ### C7 -/

/-- Counterexample to C7 as stated: with no payment rows at all but a
successful login observed at time 0, the program's builtin `max` keeps the
null payments maximum (`NaT` comparisons are all false), so `max_date` is
null and differs from the maximum timestamp observed across the four
relations. -/
theorem max_date_nat_propagation_cex :
    maxDate [] [⟨1, "success", some 0⟩] [] [] = none ∧
    (observedTimestamps [] [⟨1, "success", some 0⟩] [] []).max? = some 0 ∧
    maxDate [] [⟨1, "success", some 0⟩] [] [] ≠
      (observedTimestamps [] [⟨1, "success", some 0⟩] [] []).max? := by
  decide

/-- C7 (amended): `isAbsconded` holds exactly when both rates are below
0.1 and the user's latest successful login is absent or strictly more than
30 days before the run-wide `max_date`; and whenever `max_date` is
non-null — which requires the payments `createdAt` column to contribute at
least one timestamp, since the builtin `max` keeps a null first argument —
it is the maximum timestamp observed across the payments, login,
product-access and attendance relations. -/
theorem absconded_inactivity_formula (enrollments : List (Nat × Nat))
    (ac : List AssignmentCompletionRow) (attendance : List AttendanceRow)
    (payments : List Payment) (logins : List LoginEvent)
    (accesses : List ProductAccess) (att : List AttendanceEvent) (md : Int)
    (h : maxDate payments logins accesses att = some md) :
    (md ∈ observedTimestamps payments logins accesses att ∧
      ∀ t ∈ observedTimestamps payments logins accesses att, t ≤ md) ∧
    ∀ r ∈ (buildCompletionAndAbsconded enrollments ac attendance logins md).2,
      (r.isAbsconded = true ↔
        r.assignmentCompletionRate < 1/10 ∧ r.attendanceRate < 1/10 ∧
          (lastSuccessLogin logins r.userId = none ∨
            ∃ t, lastSuccessLogin logins r.userId = some t ∧ t < md - daysTd 30)) := by
  constructor
  · have h' : (observedTimestamps payments logins accesses att).max? = some md := by
      cases hp : (payments.filterMap (fun p => p.createdAt)).max? with
      | none =>
        simp only [maxDate, hp] at h
        exact absurd h (by simp)
      | some a => simpa only [maxDate, hp] using h
    exact ⟨List.max?_mem (fun a b => max_choice a b) h',
      fun t ht => (List.max?_le_iff (fun a b c => max_le_iff) h').1 le_rfl t ht⟩
  · intro r hr
    rw [snd_buildCompletionAndAbsconded] at hr
    simp only [List.mem_map] at hr
    obtain ⟨c, ⟨uc, huc, rfl⟩, rfl⟩ := hr
    show ((abscondedRow logins md (completionRow ac attendance uc)).isAbsconded = true ↔ _)
    cases hll : lastSuccessLogin logins (completionRow ac attendance uc).userId with
    | none =>
      simp [abscondedRow, hll, and_assoc]
    | some t =>
      simp [abscondedRow, hll, ltOpt, and_assoc]

/-- Witness for C7: a payment created at time 0 (so `max_date` is
non-null) and one successful login at the observed maximum timestamp,
which is within the 30-day window, so the row is not absconded. -/
theorem absconded_inactivity_formula_witness :
    ((abscondedRow [⟨1, "success", some 0⟩] 0
        (completionRow [] [] (1, 2))).isAbsconded = true ↔
      (abscondedRow [⟨1, "success", some 0⟩] 0
          (completionRow [] [] (1, 2))).assignmentCompletionRate < 1/10 ∧
        (abscondedRow [⟨1, "success", some 0⟩] 0
            (completionRow [] [] (1, 2))).attendanceRate < 1/10 ∧
        (lastSuccessLogin [⟨1, "success", some 0⟩]
            (abscondedRow [⟨1, "success", some 0⟩] 0
              (completionRow [] [] (1, 2))).userId = none ∨
          ∃ t, lastSuccessLogin [⟨1, "success", some 0⟩]
              (abscondedRow [⟨1, "success", some 0⟩] 0
                (completionRow [] [] (1, 2))).userId = some t ∧
            t < 0 - daysTd 30)) :=
  (absconded_inactivity_formula [(1, 2)] [] [] [⟨1, 7, "succeeded", none, some 0⟩]
    [⟨1, "success", some 0⟩] [] [] 0 (by decide)).2
    (abscondedRow [⟨1, "success", some 0⟩] 0 (completionRow [] [] (1, 2)))
    (by rw [snd_buildCompletionAndAbsconded]
        exact List.mem_map_of_mem _ (List.mem_map_of_mem _ (by decide)))

/-! ### C2 and C3 -/

theorem mkTouchRow_spec (sessions : List LiveSession) (att : List AttendanceEvent)
    (payments : List Payment) (flags : List ProductFlags)
    (accesses : List ProductAccess) (u : Nat) (r : TouchRow)
    (h : mkTouchRow sessions att payments flags accesses u = some r) :
    r.userId = u ∧
    optMin2 (firstSessionTouch att sessions u) (firstProductTouch payments flags u) =
      some r.first_touch_time ∧
    r.first_touch_type = touchType (firstSessionTouch att sessions u)
      (firstProductTouch payments flags u) ∧
    r.is_newcomer_A = geOpt (firstPaymentTime payments u) r.first_touch_time ∧
    r.is_newcomer_B = geOpt (firstMentorshipTime payments flags u) r.first_touch_time ∧
    r.is_newcomer_C = geOpt (firstAccessTime accesses u) r.first_touch_time ∧
    r.is_newcomer_strict = (r.is_newcomer_A && r.is_newcomer_B && r.is_newcomer_C) := by
  cases hmin : optMin2 (firstSessionTouch att sessions u) (firstProductTouch payments flags u) with
  | none =>
    simp only [mkTouchRow, hmin] at h
    exact absurd h (by simp)
  | some ftt =>
    simp only [mkTouchRow, hmin, Option.some.injEq] at h
    subst h
    exact ⟨rfl, rfl, rfl, rfl, rfl, rfl, rfl⟩

/-- C2: each touch row's `first_touch_time` is the minimum of the user's
candidate session/product touches (the surviving one when only one
exists), the type is "session" exactly when the session candidate exists
and is not later than the product candidate, and users with no candidate
have no row. -/
theorem first_touch_min_and_type (sessions : List LiveSession)
    (att : List AttendanceEvent) (payments : List Payment)
    (products : List Product) (accesses : List ProductAccess)
    (gq mq : ℚ) (u : Nat) :
    (firstSessionTouch att sessions u = none →
      firstProductTouch payments (classifyProducts products gq mq) u = none →
      ∀ r ∈ buildTouches sessions att payments products accesses gq mq,
        r.userId ≠ u) ∧
    ∀ r ∈ buildTouches sessions att payments products accesses gq mq,
      (∀ s p, firstSessionTouch att sessions r.userId = some s →
        firstProductTouch payments (classifyProducts products gq mq) r.userId = some p →
        r.first_touch_time = min s p ∧
        r.first_touch_type = if s ≤ p then ("session") else ("product")) ∧
      (∀ s, firstSessionTouch att sessions r.userId = some s →
        firstProductTouch payments (classifyProducts products gq mq) r.userId = none →
        r.first_touch_time = s ∧ r.first_touch_type = "session") ∧
      (∀ p, firstSessionTouch att sessions r.userId = none →
        firstProductTouch payments (classifyProducts products gq mq) r.userId = some p →
        r.first_touch_time = p ∧ r.first_touch_type = "product") := by
  constructor
  · intro hs hp r hr hru
    simp only [buildTouches, List.mem_filterMap] at hr
    obtain ⟨v, hv, hmk⟩ := hr
    have huv := (mkTouchRow_spec _ _ _ _ _ _ _ hmk).1
    have hvu : v = u := by rw [← huv, hru]
    subst hvu
    simp [mkTouchRow, hs, hp, optMin2] at hmk
  · intro r hr
    simp only [buildTouches, List.mem_filterMap] at hr
    obtain ⟨v, hv, hmk⟩ := hr
    obtain ⟨hu, hmin, hty, -⟩ := mkTouchRow_spec _ _ _ _ _ _ _ hmk
    refine ⟨?_, ?_, ?_⟩
    · intro s p hs hp
      rw [hu] at hs hp
      rw [hs, hp] at hmin hty
      refine ⟨?_, ?_⟩
      · have : some (min s p) = some r.first_touch_time := hmin
        exact (Option.some.injEq _ _ ▸ this).symm
      · simpa [touchType] using hty
    · intro s hs hp
      rw [hu] at hs hp
      rw [hs, hp] at hmin hty
      refine ⟨?_, ?_⟩
      · have : some s = some r.first_touch_time := hmin
        exact (Option.some.injEq _ _ ▸ this).symm
      · simpa [touchType] using hty
    · intro p hs hp
      rw [hu] at hs hp
      rw [hs, hp] at hmin hty
      refine ⟨?_, ?_⟩
      · have : some p = some r.first_touch_time := hmin
        exact (Option.some.injEq _ _ ▸ this).symm
      · simpa [touchType] using hty

/-- Witness for C2: a user with a gateway-session touch at 100 and a
gateway-product touch at 200 gets the minimum as first touch and type
"session". -/
theorem first_touch_min_and_type_witness :
    (⟨1, some 100, some 200, 100, "session", true, true, true, true, some 0, some 0⟩ :
        TouchRow).first_touch_time = min 100 200 ∧
    (⟨1, some 100, some 200, 100, "session", true, true, true, true, some 0, some 0⟩ :
        TouchRow).first_touch_type = if (100 : Int) ≤ 200 then ("session") else ("product") :=
  ((first_touch_min_and_type [⟨5, some ("Webinar")⟩] [⟨1, 5, some 100⟩]
      [⟨1, 7, "succeeded", some 200, none⟩] [⟨7, some ("starter mentor"), some 1⟩] []
      (1/4) (3/4) 1).2
    ⟨1, some 100, some 200, 100, "session", true, true, true, true, some 0, some 0⟩
    (by decide)).1 100 200 (by decide) (by decide)

/-- C3: in every touch row, `is_newcomer_strict` is exactly the
conjunction of the three newcomer flags, where A/B/C each hold exactly
when the corresponding first event (first succeeded payment, first
mentorship payment, first product access) is null or at/after the first
touch time. -/
theorem newcomer_strict_conjunction (sessions : List LiveSession)
    (att : List AttendanceEvent) (payments : List Payment)
    (products : List Product) (accesses : List ProductAccess) (gq mq : ℚ) :
    ∀ r ∈ buildTouches sessions att payments products accesses gq mq,
      r.is_newcomer_strict = (r.is_newcomer_A && r.is_newcomer_B && r.is_newcomer_C) ∧
      (r.is_newcomer_strict = true ↔
        r.is_newcomer_A = true ∧ r.is_newcomer_B = true ∧ r.is_newcomer_C = true) ∧
      (r.is_newcomer_A = true ↔
        firstPaymentTime payments r.userId = none ∨
        ∃ v, firstPaymentTime payments r.userId = some v ∧ r.first_touch_time ≤ v) ∧
      (r.is_newcomer_B = true ↔
        firstMentorshipTime payments (classifyProducts products gq mq) r.userId = none ∨
        ∃ v, firstMentorshipTime payments (classifyProducts products gq mq) r.userId = some v ∧
          r.first_touch_time ≤ v) ∧
      (r.is_newcomer_C = true ↔
        firstAccessTime accesses r.userId = none ∨
        ∃ v, firstAccessTime accesses r.userId = some v ∧ r.first_touch_time ≤ v) := by
  intro r hr
  simp only [buildTouches, List.mem_filterMap] at hr
  obtain ⟨v, hv, hmk⟩ := hr
  obtain ⟨hu, hmin, hty, hA, hB, hC, hS⟩ := mkTouchRow_spec _ _ _ _ _ _ _ hmk
  refine ⟨hS, by rw [hS]; simp [and_assoc], ?_, ?_, ?_⟩
  · rw [hu, hA]
    cases hfp : firstPaymentTime payments v with
    | none => simp [geOpt]
    | some w => simp [geOpt]
  · rw [hu, hB]
    cases hfp : firstMentorshipTime payments (classifyProducts products gq mq) v with
    | none => simp [geOpt]
    | some w => simp [geOpt]
  · rw [hu, hC]
    cases hfp : firstAccessTime accesses v with
    | none => simp [geOpt]
    | some w => simp [geOpt]

/-- Witness for C3 at the same concrete touch row. -/
theorem newcomer_strict_conjunction_witness :
    (⟨1, some 100, some 200, 100, "session", true, true, true, true, some 0, some 0⟩ :
        TouchRow).is_newcomer_strict =
      ((⟨1, some 100, some 200, 100, "session", true, true, true, true, some 0, some 0⟩ :
          TouchRow).is_newcomer_A &&
        (⟨1, some 100, some 200, 100, "session", true, true, true, true, some 0, some 0⟩ :
          TouchRow).is_newcomer_B &&
        (⟨1, some 100, some 200, 100, "session", true, true, true, true, some 0, some 0⟩ :
          TouchRow).is_newcomer_C) :=
  ((newcomer_strict_conjunction [⟨5, some ("Webinar")⟩] [⟨1, 5, some 100⟩]
      [⟨1, 7, "succeeded", some 200, none⟩] [⟨7, some ("starter mentor"), some 1⟩] []
      (1/4) (3/4))
    ⟨1, some 100, some 200, 100, "session", true, true, true, true, some 0, some 0⟩
    (by decide)).1

/-! ### C5 -/

theorem anyPaidCount_mono (rows : List TouchRow) (w1 w2 : Int) (h : w1 ≤ w2) :
    anyPaidCount rows w1 ≤ anyPaidCount rows w2 := by
  apply List.countP_mono_left
  intro r _ hr
  cases hd : r.days_to_any_paid with
  | none => rw [hd] at hr; exact absurd hr (by simp [leOptInt])
  | some d =>
    rw [hd] at hr
    simp only [leOptInt, decide_eq_true_eq] at hr ⊢
    omega

theorem mentPaidCount_mono (rows : List TouchRow) (w1 w2 : Int) (h : w1 ≤ w2) :
    mentPaidCount rows w1 ≤ mentPaidCount rows w2 := by
  apply List.countP_mono_left
  intro r _ hr
  cases hd : r.days_to_mentorship_paid with
  | none => rw [hd] at hr; exact absurd hr (by simp [leOptInt])
  | some d =>
    rw [hd] at hr
    simp only [leOptInt, decide_eq_true_eq] at hr ⊢
    omega

theorem rateOf_le_rateOf (c1 c2 size : Nat) (hs : size ≠ 0) (hc : c1 ≤ c2)
    (q1 q2 : ℚ) (h1 : rateOf c1 size = some q1) (h2 : rateOf c2 size = some q2) :
    q1 ≤ q2 := by
  simp only [rateOf, if_neg hs, Option.some.injEq] at h1 h2
  subst h1
  subst h2
  exact div_le_div_of_nonneg_right (by exact_mod_cast hc) (by positivity)

/-- C5: in every conversion-summary row of nonzero cohort size, both the
any-product and the mentorship conversion rates are monotonically
non-decreasing in the window size. -/
theorem conversion_rates_monotone_in_window (touches : List TouchRow) :
    ∀ srow ∈ conversionSummary touches, srow.cohort_size ≠ 0 →
      (∀ w1 c1 r1 w2 c2 r2, (w1, c1, r1) ∈ srow.any_paid →
        (w2, c2, r2) ∈ srow.any_paid → w1 ≤ w2 →
        ∀ q1 q2, r1 = some q1 → r2 = some q2 → q1 ≤ q2) ∧
      (∀ w1 c1 r1 w2 c2 r2, (w1, c1, r1) ∈ srow.mentorship_paid →
        (w2, c2, r2) ∈ srow.mentorship_paid → w1 ≤ w2 →
        ∀ q1 q2, r1 = some q1 → r2 = some q2 → q1 ≤ q2) := by
  intro srow hs hsize
  simp only [conversionSummary, List.mem_map] at hs
  obtain ⟨nc, hnc, rfl⟩ := hs
  have hsz : cohortSize (touches.filter nc.2) ≠ 0 := hsize
  constructor
  · intro w1 c1 r1 w2 c2 r2 h1 h2 hw q1 q2 hq1 hq2
    simp only [List.mem_map, Prod.ext_iff] at h1 h2
    obtain ⟨w1', hw1', hwe1, hce1, hre1⟩ := h1
    obtain ⟨w2', hw2', hwe2, hce2, hre2⟩ := h2
    subst hwe1; subst hwe2; subst hce1; subst hce2
    rw [← hre1] at hq1
    rw [← hre2] at hq2
    exact rateOf_le_rateOf _ _ _ hsz (anyPaidCount_mono _ _ _ hw) _ _ hq1 hq2
  · intro w1 c1 r1 w2 c2 r2 h1 h2 hw q1 q2 hq1 hq2
    simp only [List.mem_map, Prod.ext_iff] at h1 h2
    obtain ⟨w1', hw1', hwe1, hce1, hre1⟩ := h1
    obtain ⟨w2', hw2', hwe2, hce2, hre2⟩ := h2
    subst hwe1; subst hwe2; subst hce1; subst hce2
    rw [← hre1] at hq1
    rw [← hre2] at hq2
    exact rateOf_le_rateOf _ _ _ hsz (mentPaidCount_mono _ _ _ hw) _ _ hq1 hq2

/-- Witness for C5: on a one-user cohort the 1-day rate is at most the
30-day rate. -/
theorem conversion_rates_monotone_in_window_witness :
    (anyPaidCount cohortRowsW 1 : ℚ) / (cohortSize cohortRowsW : ℚ) ≤
      (anyPaidCount cohortRowsW 30 : ℚ) / (cohortSize cohortRowsW : ℚ) := by
  have h := (conversion_rates_monotone_in_window [touchRowW]
      { cohort := "newcomer_A"
        cohort_size := cohortSize cohortRowsW
        any_paid := windows.map (fun w =>
          (w, anyPaidCount cohortRowsW w,
            rateOf (anyPaidCount cohortRowsW w) (cohortSize cohortRowsW)))
        mentorship_paid := windows.map (fun w =>
          (w, mentPaidCount cohortRowsW w,
            rateOf (mentPaidCount cohortRowsW w) (cohortSize cohortRowsW))) }
      (List.mem_map_of_mem _ (List.Mem.head _)) (by decide)).1
    1 (anyPaidCount cohortRowsW 1)
    (rateOf (anyPaidCount cohortRowsW 1) (cohortSize cohortRowsW))
    30 (anyPaidCount cohortRowsW 30)
    (rateOf (anyPaidCount cohortRowsW 30) (cohortSize cohortRowsW))
    (List.mem_map_of_mem _ (by decide)) (List.mem_map_of_mem _ (by decide))
    (by decide)
  exact h _ _ (by unfold rateOf; rw [if_neg (by decide)]) (by unfold rateOf; rw [if_neg (by decide)])

/-! ### C6 -/

theorem curveSegment_days (name : String) (rows : List TouchRow) (size : Nat) :
    (curveSegment name rows size).map (fun r => r.day) =
      (List.range 31).map Int.ofNat := by
  simp [curveSegment, List.map_map]

theorem mem_curveSegment (name : String) (rows : List TouchRow) (size : Nat)
    (r : CurveRow) (h : r ∈ curveSegment name rows size) :
    r.cohort = name ∧
    r.mentorship_conversion_rate = (mentPaidCount rows r.day : ℚ) / (size : ℚ) ∧
    ∃ d, d < 31 ∧ r.day = Int.ofNat d := by
  rw [curveSegment] at h
  obtain ⟨d, hd, rfl⟩ := List.mem_map.1 h
  refine ⟨rfl, rfl, d, ?_, rfl⟩
  exact List.mem_range.1 hd

theorem conversionCurve_decomp (touches : List TouchRow) :
    conversionCurve touches =
      (if cohortSize (touches.filter (fun r => r.is_newcomer_A)) = 0 then []
       else curveSegment ("newcomer_A") (touches.filter (fun r => r.is_newcomer_A))
         (cohortSize (touches.filter (fun r => r.is_newcomer_A)))) ++
      ((if cohortSize (touches.filter (fun r => r.is_newcomer_B)) = 0 then []
       else curveSegment ("newcomer_B") (touches.filter (fun r => r.is_newcomer_B))
         (cohortSize (touches.filter (fun r => r.is_newcomer_B)))) ++
      ((if cohortSize (touches.filter (fun r => r.is_newcomer_C)) = 0 then []
       else curveSegment ("newcomer_C") (touches.filter (fun r => r.is_newcomer_C))
         (cohortSize (touches.filter (fun r => r.is_newcomer_C)))) ++
      (if cohortSize (touches.filter (fun r => r.is_newcomer_strict)) = 0 then []
       else curveSegment ("newcomer_strict") (touches.filter (fun r => r.is_newcomer_strict))
         (cohortSize (touches.filter (fun r => r.is_newcomer_strict)))))) := by
  simp [conversionCurve, cohortDefs]

theorem filter_curveSegment_self (name : String) (rows : List TouchRow) (size : Nat) :
    (curveSegment name rows size).filter (fun r => r.cohort == name) =
      curveSegment name rows size := by
  apply List.filter_eq_self.2
  intro r hr
  have := (mem_curveSegment name rows size r hr).1
  simp [this]

theorem filter_curveSegment_ne (name other : String) (rows : List TouchRow)
    (size : Nat) (h : ¬name = other) :
    (curveSegment name rows size).filter (fun r => r.cohort == other) = [] := by
  apply List.filter_eq_nil_iff.2
  intro r hr
  have := (mem_curveSegment name rows size r hr).1
  simp [this, h]

theorem curveSegment_rate_mono (name : String) (rows : List TouchRow) (size : Nat)
    (hs : size ≠ 0) (r1 r2 : CurveRow) (h1 : r1 ∈ curveSegment name rows size)
    (h2 : r2 ∈ curveSegment name rows size) (hd : r1.day ≤ r2.day) :
    r1.mentorship_conversion_rate ≤ r2.mentorship_conversion_rate := by
  rw [(mem_curveSegment name rows size r1 h1).2.1,
    (mem_curveSegment name rows size r2 h2).2.1]
  apply div_le_div_of_nonneg_right
  · exact_mod_cast mentPaidCount_mono rows r1.day r2.day hd
  · have : 0 < size := Nat.pos_of_ne_zero hs
    positivity

theorem filter_segIf_self (name : String) (rows : List TouchRow) :
    ((if cohortSize rows = 0 then []
      else curveSegment name rows (cohortSize rows)).filter
        (fun r => r.cohort == name)) =
    (if cohortSize rows = 0 then [] else curveSegment name rows (cohortSize rows)) := by
  split
  · rfl
  · exact filter_curveSegment_self name rows _

theorem filter_segIf_ne (name other : String) (rows : List TouchRow) (h : ¬name = other) :
    ((if cohortSize rows = 0 then []
      else curveSegment name rows (cohortSize rows)).filter
        (fun r => r.cohort == other)) = [] := by
  split
  · rfl
  · exact filter_curveSegment_ne name other rows _ h

/-- C6: the conversion summary always has one row per cohort definition;
a cohort of zero size contributes no curve rows at all, while a nonzero
cohort contributes exactly the 31 days 0..30 in order, with a
non-decreasing mentorship conversion rate. -/
theorem conversion_curve_shape (touches : List TouchRow) :
    ((conversionSummary touches).map (fun s => s.cohort) =
      ["newcomer_A", "newcomer_B", "newcomer_C", "newcomer_strict"]) ∧
    ∀ nc ∈ cohortDefs,
      (cohortSize (touches.filter nc.2) = 0 →
        ∀ r ∈ conversionCurve touches, r.cohort ≠ nc.1) ∧
      (cohortSize (touches.filter nc.2) ≠ 0 →
        ((conversionCurve touches).filter (fun r => r.cohort == nc.1)).map
            (fun r => r.day) = (List.range 31).map Int.ofNat ∧
        ∀ r1 ∈ (conversionCurve touches).filter (fun r => r.cohort == nc.1),
        ∀ r2 ∈ (conversionCurve touches).filter (fun r => r.cohort == nc.1),
          r1.day ≤ r2.day →
          r1.mentorship_conversion_rate ≤ r2.mentorship_conversion_rate) := by
  have hf : ∀ nc ∈ cohortDefs,
      (conversionCurve touches).filter (fun r => r.cohort == nc.1) =
      (if cohortSize (touches.filter nc.2) = 0 then []
       else curveSegment nc.1 (touches.filter nc.2) (cohortSize (touches.filter nc.2))) := by
    intro nc hnc
    have hnc' : nc = ("newcomer_A", fun (r : TouchRow) => r.is_newcomer_A) ∨
        nc = ("newcomer_B", fun (r : TouchRow) => r.is_newcomer_B) ∨
        nc = ("newcomer_C", fun (r : TouchRow) => r.is_newcomer_C) ∨
        nc = ("newcomer_strict", fun (r : TouchRow) => r.is_newcomer_strict) := by
      simpa [cohortDefs] using hnc
    rcases hnc' with rfl | rfl | rfl | rfl
    · rw [conversionCurve_decomp, List.filter_append, List.filter_append, List.filter_append,
        filter_segIf_self ("newcomer_A") (touches.filter (fun r => r.is_newcomer_A)),
        filter_segIf_ne ("newcomer_B") ("newcomer_A")
          (touches.filter (fun r => r.is_newcomer_B)) (by decide),
        filter_segIf_ne ("newcomer_C") ("newcomer_A")
          (touches.filter (fun r => r.is_newcomer_C)) (by decide),
        filter_segIf_ne ("newcomer_strict") ("newcomer_A")
          (touches.filter (fun r => r.is_newcomer_strict)) (by decide)]
      simp
    · rw [conversionCurve_decomp, List.filter_append, List.filter_append, List.filter_append,
        filter_segIf_ne ("newcomer_A") ("newcomer_B")
          (touches.filter (fun r => r.is_newcomer_A)) (by decide),
        filter_segIf_self ("newcomer_B") (touches.filter (fun r => r.is_newcomer_B)),
        filter_segIf_ne ("newcomer_C") ("newcomer_B")
          (touches.filter (fun r => r.is_newcomer_C)) (by decide),
        filter_segIf_ne ("newcomer_strict") ("newcomer_B")
          (touches.filter (fun r => r.is_newcomer_strict)) (by decide)]
      simp
    · rw [conversionCurve_decomp, List.filter_append, List.filter_append, List.filter_append,
        filter_segIf_ne ("newcomer_A") ("newcomer_C")
          (touches.filter (fun r => r.is_newcomer_A)) (by decide),
        filter_segIf_ne ("newcomer_B") ("newcomer_C")
          (touches.filter (fun r => r.is_newcomer_B)) (by decide),
        filter_segIf_self ("newcomer_C") (touches.filter (fun r => r.is_newcomer_C)),
        filter_segIf_ne ("newcomer_strict") ("newcomer_C")
          (touches.filter (fun r => r.is_newcomer_strict)) (by decide)]
      simp
    · rw [conversionCurve_decomp, List.filter_append, List.filter_append, List.filter_append,
        filter_segIf_ne ("newcomer_A") ("newcomer_strict")
          (touches.filter (fun r => r.is_newcomer_A)) (by decide),
        filter_segIf_ne ("newcomer_B") ("newcomer_strict")
          (touches.filter (fun r => r.is_newcomer_B)) (by decide),
        filter_segIf_ne ("newcomer_C") ("newcomer_strict")
          (touches.filter (fun r => r.is_newcomer_C)) (by decide),
        filter_segIf_self ("newcomer_strict") (touches.filter (fun r => r.is_newcomer_strict))]
      simp
  refine ⟨by simp [conversionSummary, cohortDefs], ?_⟩
  intro nc hnc
  refine ⟨?_, ?_⟩
  · intro hz r hr heq
    have hmem : r ∈ (conversionCurve touches).filter (fun r => r.cohort == nc.1) :=
      List.mem_filter.2 ⟨hr, by simp [heq]⟩
    rw [hf nc hnc, if_pos hz] at hmem
    exact absurd hmem (List.not_mem_nil r)
  · intro hz
    constructor
    · rw [hf nc hnc, if_neg hz, curveSegment_days]
    · intro r1 h1 r2 h2 hd
      rw [hf nc hnc, if_neg hz] at h1 h2
      exact curveSegment_rate_mono _ _ _ hz r1 r2 h1 h2 hd

/-- Witness for C6: the one-member newcomer-A cohort yields the full
31-day curve. -/
theorem conversion_curve_shape_witness :
    ((conversionCurve [touchRowW]).filter (fun r => r.cohort == "newcomer_A")).map
        (fun r => r.day) = (List.range 31).map Int.ofNat :=
  (((conversion_curve_shape [touchRowW]).2 ("newcomer_A", fun r => r.is_newcomer_A)
      (List.Mem.head _)).2 (by decide)).1

/-! ### C8 -/

theorem countBetween_map {α : Type} (l : List α) (f : α → Nat × Option Int)
    (u : Nat) (pt a b : Int) :
    countBetween (l.map f) u pt a b =
    l.countP (fun x => (f x).1 = u &&
      (match (f x).2 with
       | some t => decide (pt + daysTd a ≤ t ∧ t ≤ pt + daysTd b)
       | none => false)) := by
  rw [countBetween, List.countP_map]
  apply List.countP_congr
  intro x hx
  cases h : (f x).2 with
  | none => simp [Function.comp, h]
  | some t => simp [Function.comp, h, Bool.decide_and]

/-- C8: the buyer's-remorse output has exactly one row per succeeded
payment with a non-null `paidAt` (in input order, keyed by payer and paid
time), and each row's week-1 / week-4 counts are the events of the payer
in the inclusive windows `[paidAt + 0d, paidAt + 7d]` and
`[paidAt + 22d, paidAt + 28d]` of the respective stream (attendance,
submissions, successful logins); empty windows give the count 0. -/
theorem buyers_remorse_per_payment (payments : List Payment)
    (att : List AttendanceEvent) (subs : List SubmissionEvent)
    (logins : List LoginEvent) :
    ((buyersRemorseWindow payments att subs logins).map (fun r => (r.userId, r.paidAt)) =
      payments.filterMap (fun p =>
        if p.status == "succeeded" then p.paidAt.map (fun t => (p.userId, t)) else none)) ∧
    ∀ r ∈ buyersRemorseWindow payments att subs logins,
      (r.week1_attendance = att.countP (fun e => e.studentId = r.userId &&
        (match e.attendedAt with
         | some t => decide (r.paidAt + daysTd 0 ≤ t ∧ t ≤ r.paidAt + daysTd 7)
         | none => false)) ∧
       r.week4_attendance = att.countP (fun e => e.studentId = r.userId &&
        (match e.attendedAt with
         | some t => decide (r.paidAt + daysTd 22 ≤ t ∧ t ≤ r.paidAt + daysTd 28)
         | none => false))) ∧
      (r.week1_submissions = subs.countP (fun e => e.studentId = r.userId &&
        (match e.submittedAt with
         | some t => decide (r.paidAt + daysTd 0 ≤ t ∧ t ≤ r.paidAt + daysTd 7)
         | none => false)) ∧
       r.week4_submissions = subs.countP (fun e => e.studentId = r.userId &&
        (match e.submittedAt with
         | some t => decide (r.paidAt + daysTd 22 ≤ t ∧ t ≤ r.paidAt + daysTd 28)
         | none => false))) ∧
      (r.week1_logins = (logins.filter (fun l => l.status == "success")).countP
        (fun l => l.userId = r.userId &&
          (match l.timestamp with
           | some t => decide (r.paidAt + daysTd 0 ≤ t ∧ t ≤ r.paidAt + daysTd 7)
           | none => false)) ∧
       r.week4_logins = (logins.filter (fun l => l.status == "success")).countP
        (fun l => l.userId = r.userId &&
          (match l.timestamp with
           | some t => decide (r.paidAt + daysTd 22 ≤ t ∧ t ≤ r.paidAt + daysTd 28)
           | none => false))) := by
  constructor
  · induction payments with
    | nil => rfl
    | cons p ps ih =>
      simp only [buyersRemorseWindow, List.filter_cons, List.filterMap_cons] at ih ⊢
      by_cases hs : p.status == "succeeded"
      · simp only [hs, if_true]
        cases hp : p.paidAt with
        | none => simpa [hp] using ih
        | some t => simpa [hp] using ih
      · simp only [hs] at ih ⊢
        simpa using ih
  · intro r hr
    simp only [buyersRemorseWindow, List.mem_filterMap, List.mem_filter] at hr
    obtain ⟨p, hp, hmk⟩ := hr
    cases hpt : p.paidAt with
    | none => rw [hpt] at hmk; simp at hmk
    | some t =>
      rw [hpt] at hmk
      simp only [Option.map_some', Option.some.injEq] at hmk
      subst hmk
      exact ⟨⟨countBetween_map att _ _ _ _ _, countBetween_map att _ _ _ _ _⟩,
        ⟨countBetween_map subs _ _ _ _ _, countBetween_map subs _ _ _ _ _⟩,
        ⟨countBetween_map _ _ _ _ _ _, countBetween_map _ _ _ _ _ _⟩⟩

/-- Witness for C8: a payment at time 0 with one attendance at day 7
(inside week 1, inclusive), one at day 8 (outside), and a successful
login at day 22 (inside week 4, inclusive). -/
theorem buyers_remorse_per_payment_witness :
    (⟨1, 0, 1, 0, 0, 0, 0, 1⟩ : RemorseRow).week1_attendance =
      [(⟨1, 5, some (daysTd 7)⟩ : AttendanceEvent), ⟨1, 5, some (daysTd 8)⟩].countP
        (fun e => e.studentId = (⟨1, 0, 1, 0, 0, 0, 0, 1⟩ : RemorseRow).userId &&
          (match e.attendedAt with
           | some t => decide ((⟨1, 0, 1, 0, 0, 0, 0, 1⟩ : RemorseRow).paidAt + daysTd 0 ≤ t ∧
               t ≤ (⟨1, 0, 1, 0, 0, 0, 0, 1⟩ : RemorseRow).paidAt + daysTd 7)
           | none => false)) :=
  (((buyers_remorse_per_payment [⟨1, 7, "succeeded", some 0, none⟩]
      [⟨1, 5, some (daysTd 7)⟩, ⟨1, 5, some (daysTd 8)⟩] []
      [⟨1, "success", some (daysTd 22)⟩]).2
    ⟨1, 0, 1, 0, 0, 0, 0, 1⟩ (by decide)).1).1

/-! ### C9 -/

/-- C9: the gateway price threshold is inclusive — a product whose price
equals the low quantile of the non-null price distribution is flagged
gateway regardless of keywords — and with no non-null prices at all the
classification is keyword-only for both flags. -/
theorem gateway_price_threshold_inclusive (products : List Product) (gq mq : ℚ) :
    (nonNullPrices products ≠ [] →
      ∀ r ∈ classifyProducts products gq mq,
        r.price = some (quantileSorted (sortQ (nonNullPrices products)) gq) →
        r.is_gateway_product = true) ∧
    (nonNullPrices products = [] →
      ∀ r ∈ classifyProducts products gq mq,
        r.is_gateway_product = hasKeyword r.productTitle GATEWAY_PRODUCT_KEYWORDS ∧
        r.is_mentorship_product = hasKeyword r.productTitle MENTORSHIP_KEYWORDS) := by
  constructor
  · intro hne r hr hpr
    simp only [classifyProducts, List.mem_map] at hr
    obtain ⟨p, hp, rfl⟩ := hr
    have hpr' : p.price = some (quantileSorted (sortQ (nonNullPrices products)) gq) := hpr
    have hP : (nonNullPrices products).isEmpty = false := by
      cases hnn : nonNullPrices products with
      | nil => exact absurd hnn hne
      | cons a l => rfl
    simp [hP, hpr', priceLe]
  · intro hniL r hr
    simp only [classifyProducts, List.mem_map] at hr
    obtain ⟨p, hp, rfl⟩ := hr
    have hP : (nonNullPrices products).isEmpty = true := by rw [hniL]; rfl
    constructor <;> simp [hP]

theorem quantileW_eval :
    quantileSorted (sortQ (nonNullPrices [(⟨1, some ("thing"), some 10⟩ : Product)]))
      (1/4) = 10 := by
  norm_num [quantileSorted, sortQ, insertSorted, nonNullPrices, List.filterMap_cons,
    List.foldr_cons, List.foldr_nil, List.getD, Int.fract]

/-- Witness for C9: a keywordless product priced exactly at the (singleton)
low quantile is flagged as a gateway product. -/
theorem gateway_price_threshold_inclusive_witness :
    ((classifyProducts [(⟨1, some ("thing"), some 10⟩ : Product)] (1/4) (3/4)).headD
      ⟨0, none, none, false, false⟩).is_gateway_product = true :=
  (gateway_price_threshold_inclusive [(⟨1, some ("thing"), some 10⟩ : Product)]
      (1/4) (3/4)).1
    (by simp [nonNullPrices])
    ((classifyProducts [(⟨1, some ("thing"), some 10⟩ : Product)] (1/4) (3/4)).headD
      ⟨0, none, none, false, false⟩)
    (List.Mem.head _)
    (by rw [quantileW_eval]; rfl)
